import Mathlib

/-!
# Verification of the kicad-mcp schematic core

A shallow embedding of `src/kicad_mcp/schematic_core` (`models.py`,
`dsl_emitter.py`, `librarian.py`) in Lean 4, together with theorems that
settle the spec's claims about it.

Modelling conventions:
* Python lists become `List`, tuples become products, `str` becomes `String`.
* A Python `set` of page names is modelled as the `List` of its elements
  (a provider-produced set has no duplicate elements); `len()` on it becomes
  `List.length` and `in` becomes list membership.
* Python exceptions become `Except String`; the mutable `Librarian` object
  becomes explicit state passing over a `LibState` value.
* `char.isalpha()` / `char.isdigit()` and `re.IGNORECASE` are modelled on
  ASCII (`Char.isAlpha`, `Char.isDigit`, `Char.toUpper`), which is what the
  data of this repository uses.
-/

namespace SchematicCore

/-! ## Data model (`models.py`) -/

/-- A single pin on a component (`models.Pin`). -/
structure Pin where
  designator : String
  name : String
  net : String
deriving Repr, DecidableEq

/-- An electronic component (`models.Component`). `location` is captured but
never emitted; `properties` is the extra-metadata mapping, modelled as an
association list. -/
structure Component where
  refdes : String
  value : String
  footprint : String
  mpn : String
  page : String
  description : String
  pins : List Pin
  location : Int × Int := (0, 0)
  properties : List (String × String) := []
  multipart_parent : Option String := none
deriving Repr, DecidableEq

/-- The maximal alphabetic run at the front of a refdes: the
`for char in self.refdes: if char.isalpha(): ... else: break` loop of
`Component.derived_type`. -/
def leadingAlpha : List Char → List Char
  | [] => []
  | c :: cs => if c.isAlpha then c :: leadingAlpha cs else []

/-- The uppercased alphabetic refdes head that `derived_type` switches on. -/
def refdesHead (refdes : String) : String :=
  String.mk ((leadingAlpha refdes.data).map Char.toUpper)

/-- `models.Component.derived_type`: the fixed refdes-head-to-type table. -/
def Component.derived_type (c : Component) : String :=
  let pu := refdesHead c.refdes
  if pu = "R" then "RES"
  else if pu = "C" then "CAP"
  else if pu = "L" ∨ pu = "FB" then "IND"
  else if pu = "F" then "FUSE"
  else if pu = "D" ∨ pu = "LED" then "DIODE"
  else if pu = "Q" then "TRANSISTOR"
  else if pu = "U" then "IC"
  else if pu = "J" ∨ pu = "P" ∨ pu = "CN" ∨ pu = "CONN" then "CONN"
  else if pu = "SW" then "SWITCH"
  else if pu = "X" ∨ pu = "Y" then "OSC"
  else "ACTIVE"

/-- The simple pin names of `models.Component.is_complex`. -/
def simplePinNames : List String := ["1", "2", "3", "4", "A", "K", ""]

/-- `models.Component.is_complex`: more than 4 pins, or some pin with a
non-empty name outside the simple set. -/
def Component.is_complex (c : Component) : Bool :=
  if c.pins.length > 4 then true
  else c.pins.any (fun p => p.name ≠ "" && !(simplePinNames.contains p.name))

/-- `models.Component.is_passive`: the derived type is RES/CAP/IND/FUSE. -/
def Component.is_passive (c : Component) : Bool :=
  ["RES", "CAP", "IND", "FUSE"].contains c.derived_type

/-- A net (`models.Net`). `pages` models the Python page-name set as its
list of elements; `members` is the list of (refdes, pin designator) pairs. -/
structure Net where
  name : String
  pages : List String := []
  members : List (String × String) := []
deriving Repr, DecidableEq

/-! ### The power/ground name pattern of `Net.is_global`

`models.py` tests `re.match(power_pattern, self.name, re.IGNORECASE)` with

  `^(P?GND|VSS|VCC|VDD|VEE|VBAT)($|_.*)|^(\+?(\d+\.?\d*V\d*|\d*\.?\d*V\d+)|\+?(\d+V))|^.*_(GND|VCC|VDD)$`

The three alternatives are translated one by one below, on the uppercased
character list (`re.IGNORECASE` over ASCII).  `re.match` anchors at the
start only, so an alternative without `$` accepts any name with a matching
prefix.  Python's default-mode `$` matches at the end of the string or just
before one trailing newline, and `.` matches any character except a
newline; both details are kept. -/

/-- The literal head alternatives `P?GND|VSS|VCC|VDD|VEE|VBAT`. -/
def powerHeads : List (List Char) :=
  ["PGND", "GND", "VSS", "VCC", "VDD", "VEE", "VBAT"].map String.data

/-- `($|_.*)` after a power head: end of string, end before one trailing
newline, or an underscore (after which `.*` always matches). -/
def afterPowerHead : List Char → Bool
  | [] => true
  | ['\n'] => true
  | '_' :: _ => true
  | _ => false

/-- First alternative: `^(P?GND|VSS|VCC|VDD|VEE|VBAT)($|_.*)`. -/
def matchPowerHead (u : List Char) : Bool :=
  powerHeads.any (fun p => u.take p.length == p && afterPowerHead (u.drop p.length))

/-- One optional leading `\+`.  A name starting with `+` can only match the
rail alternatives through the `\+` branch (no rail body starts with `+`),
and a name not starting with `+` only through the empty branch, so the
option is resolved deterministically. -/
def stripPlus : List Char → List Char
  | '+' :: rest => rest
  | cs => cs

/-- Rail body `\d+\.?\d*V\d*` as a prefix of the name (the trailing `\d*`
can match empty, so nothing after the `V` is constrained). -/
def matchRailA (cs : List Char) : Bool :=
  let (d1, r1) := cs.span Char.isDigit
  if d1.isEmpty then false
  else
    match r1 with
    | 'V' :: _ => true
    | '.' :: r2 =>
      match (r2.span Char.isDigit).2 with
      | 'V' :: _ => true
      | _ => false
    | _ => false

/-- Rail body `\d*\.?\d*V\d+` as a prefix of the name: at least one digit
is required after the `V`. -/
def matchRailB (cs : List Char) : Bool :=
  let r1 := (cs.span Char.isDigit).2
  let r2 :=
    match r1 with
    | '.' :: rest => (rest.span Char.isDigit).2
    | _ => r1
  match r2 with
  | 'V' :: c :: _ => c.isDigit
  | _ => false

/-- Rail body `\d+V` as a prefix of the name. -/
def matchRailC (cs : List Char) : Bool :=
  let (d1, r1) := cs.span Char.isDigit
  !d1.isEmpty &&
    match r1 with
    | 'V' :: _ => true
    | _ => false

/-- Second alternative: `^(\+?(\d+\.?\d*V\d*|\d*\.?\d*V\d+)|\+?(\d+V))`. -/
def matchVoltageRail (u : List Char) : Bool :=
  matchRailA (stripPlus u) || matchRailB (stripPlus u) || matchRailC (stripPlus u)

/-- The suffix alternatives of `^.*_(GND|VCC|VDD)$`. -/
def powerTails : List (List Char) :=
  ["_GND", "_VCC", "_VDD"].map String.data

/-- Third alternative: `^.*_(GND|VCC|VDD)$`.  `$` may sit before one
trailing newline; the part matched by `.*` must not contain a newline. -/
def matchPowerTail (u : List Char) : Bool :=
  let core :=
    match u.reverse with
    | '\n' :: rest => rest.reverse
    | _ => u
  powerTails.any (fun e =>
    decide (e.length ≤ core.length) &&
    core.drop (core.length - e.length) == e &&
    !(core.take (core.length - e.length)).contains '\n')

/-- The whole `power_pattern` test of `models.Net.is_global`. -/
def matchesPowerPattern (s : String) : Bool :=
  let u := s.data.map Char.toUpper
  matchPowerHead u || matchVoltageRail u || matchPowerTail u

/-- `models.Net.is_global`: power/ground name, or more than 15 members, or
more than 3 pages. -/
def Net.is_global (n : Net) : Bool :=
  if matchesPowerPattern n.name then true
  else if n.members.length > 15 then true
  else if n.pages.length > 3 then true
  else false

/-- `models.Net.is_inter_page`: the net appears on more than one page. -/
def Net.is_inter_page (n : Net) : Bool :=
  n.pages.length > 1

/-! ## Sorting (`sorted` / `list.sort` in the emitter)

Python's `sorted` is a stable ascending sort.  It is modelled by a stable
insertion sort parameterised over a boolean `≤`: an element is inserted
before the first existing element it is `≤` to, so elements comparing equal
keep their original order, exactly as in CPython. -/

/-- Insert `x` before the first element `y` with `le x y`. -/
def insertAsc (le : α → α → Bool) (x : α) : List α → List α
  | [] => [x]
  | y :: ys => if le x y then x :: y :: ys else y :: insertAsc le x ys

/-- Stable ascending sort by the boolean relation `le`. -/
def sortAsc (le : α → α → Bool) : List α → List α
  | [] => []
  | x :: xs => insertAsc le x (sortAsc le xs)

/-- Python `<` on strings: lexicographic on the code points, a strict
prefix is smaller. -/
def charsLt : List Char → List Char → Bool
  | [], [] => false
  | [], _ :: _ => true
  | _ :: _, [] => false
  | a :: as, b :: bs => decide (a < b) || (a == b && charsLt as bs)

/-- Boolean string `<` (Python's string comparison). -/
def strLt (a b : String) : Bool := charsLt a.data b.data

/-- Boolean string `≤`: the total order used to model Python `sorted`. -/
def strLe (a b : String) : Bool := !(strLt b a)

/-- Python `sorted` on strings: lexicographic by code point. -/
def sortStrings (xs : List String) : List String :=
  sortAsc strLe xs

/-! ## DSL emitter (`dsl_emitter.py`) -/

/-- One element of the tuple `_natural_sort_key` returns: a non-digit run
kept as a string, or a digit run converted by `atoi`. -/
inductive KeyPart where
  | str : String → KeyPart
  | num : Nat → KeyPart
deriving Repr, DecidableEq, BEq

/-- Decimal value of a run of digit characters (`int(text)`). -/
def digitsVal (cs : List Char) : Nat :=
  cs.foldl (fun a c => a * 10 + (c.toNat - '0'.toNat)) 0

/-- `dsl_emitter._natural_sort_key`: `re.split(r'(\d+)', text)` cuts the
text into maximal digit / non-digit runs, always starting and ending with a
(possibly empty) non-digit piece, and `atoi` turns every digit run into the
number it denotes. -/
def natural_sort_key (s : String) : List KeyPart :=
  let parts := (s.data.splitBy (fun a b => a.isDigit == b.isDigit)).map
    (fun r => if r.any Char.isDigit then KeyPart.num (digitsVal r)
              else KeyPart.str (String.mk r))
  let withLead :=
    match parts with
    | KeyPart.num _ :: _ => KeyPart.str "" :: parts
    | [] => [KeyPart.str ""]
    | _ => parts
  match withLead.getLast? with
  | some (KeyPart.num _) => withLead ++ [KeyPart.str ""]
  | _ => withLead

/-- Python `<` on one tuple component.  Two parts at the same position of
two keys always have the same constructor (both keys alternate
string/number parts), so the mixed case — a `TypeError` in Python — is
never reached. -/
def keyPartLt : KeyPart → KeyPart → Bool
  | KeyPart.str a, KeyPart.str b => strLt a b
  | KeyPart.num a, KeyPart.num b => decide (a < b)
  | _, _ => false

/-- Python `<` on key tuples: lexicographic, a strict prefix is smaller. -/
def keyLt : List KeyPart → List KeyPart → Bool
  | [], [] => false
  | [], _ :: _ => true
  | _ :: _, [] => false
  | a :: as, b :: bs => keyPartLt a b || (a == b && keyLt as bs)

/-- `sorted(designators, key=_natural_sort_key)`. -/
def naturalSortStrings (xs : List String) : List String :=
  sortAsc (fun a b => !(keyLt (natural_sort_key b) (natural_sort_key a))) xs

/-- `sorted(component.pins, key=lambda p: _natural_sort_key(p.designator))`. -/
def sortPins (pins : List Pin) : List Pin :=
  sortAsc (fun p q =>
    !(keyLt (natural_sort_key q.designator) (natural_sort_key p.designator))) pins

/-- `"sep".join(parts)`. -/
def joinWith (sep : String) : List String → String
  | [] => ""
  | [a] => a
  | a :: rest => a ++ sep ++ joinWith sep rest

/-- The trivial pin names of `_format_pin_reference`. -/
def trivialPinNames : List String := ["1", "2", "3", "4", "A", "K"]

/-- `dsl_emitter._format_pin_reference`: `REFDES.PIN`, or
`REFDES.PIN(NAME)` when the pin is found on a known component and carries a
semantic, non-trivial name.  The lookups take the first component with the
refdes and its first pin with the designator, as the Python loops do. -/
def _format_pin_reference (refdes pin_designator : String)
    (components : List Component) : String :=
  match components.find? (fun comp => comp.refdes == refdes) with
  | none => refdes ++ "." ++ pin_designator
  | some component =>
    match component.pins.find? (fun p => p.designator == pin_designator) with
    | none => refdes ++ "." ++ pin_designator
    | some pin =>
      if pin.name = "" then refdes ++ "." ++ pin_designator
      else if trivialPinNames.contains pin.name then refdes ++ "." ++ pin_designator
      else refdes ++ "." ++ pin_designator ++ "(" ++ pin.name ++ ")"

/-- `dsl_emitter._format_component_block`: the DEF/COMP block of a complex
component. -/
def _format_component_block (component : Component) : String :=
  let defLine :=
    if component.description ≠ "" then
      "DEF " ++ component.derived_type ++ " " ++ component.description
    else "DEF " ++ component.derived_type
  let compLine := "COMP " ++ component.refdes ++ " (" ++ component.value ++ ")"
  let mpnLines := if component.mpn ≠ "" then ["  MPN: " ++ component.mpn] else []
  let fpLines :=
    if component.footprint ≠ "" then ["  FP: " ++ component.footprint] else []
  let pinLines :=
    if component.pins.isEmpty then []
    else "  PINS:" ::
      (sortPins component.pins).map (fun pin =>
        if pin.name ≠ "" then "    " ++ pin.designator ++ ": " ++ pin.name
        else "    " ++ pin.designator ++ ":")
  joinWith "\n" ([defLine, compLine] ++ mpnLines ++ fpLines ++ pinLines)

/-- The sorted pin references of a net's connections line. -/
def sortedPinRefs (net : Net) (components : List Component) : List String :=
  sortStrings (net.members.map (fun m => _format_pin_reference m.1 m.2 components))

/-- `dsl_emitter._format_net_block`: NET header, optional LINKS line, and
the CON line, truncated to 10 references for a global net. -/
def _format_net_block (net : Net) (net_pages : List String)
    (components : List Component) : String :=
  let is_global := net.is_global
  let is_inter_page := net_pages.length > 1
  let linkLines : List String :=
    if is_global then ["  LINKS: ALL_PAGES"]
    else if is_inter_page then
      ["  LINKS: " ++ joinWith ", " (sortStrings net_pages)]
    else []
  let pin_refs := sortedPinRefs net components
  let con_str :=
    if is_global && decide (pin_refs.length > 10) then
      joinWith ", " (pin_refs.take 10) ++
        " (+ " ++ toString (pin_refs.length - 10) ++ " others)"
    else joinWith ", " pin_refs
  joinWith "\n" (("NET " ++ net.name) :: linkLines ++ ["  CON: " ++ con_str])

/-- `net_page_map.get(name, set())`: the Atlas lookup in `emit_page_dsl`. -/
def atlasPages (atlas : List (String × List String)) (name : String) : List String :=
  match atlas.find? (fun e => e.1 == name) with
  | some e => e.2
  | none => []

/-- `dsl_emitter.emit_page_dsl`. -/
def emit_page_dsl (components : List Component) (nets : List Net)
    (net_page_map : List (String × List String)) : String :=
  if components.isEmpty then "# No components on this page\n"
  else
    let page_name := match components.head? with | some c => c.page | none => "Unknown"
    let sorted_components := sortAsc (fun a b => strLe a.refdes b.refdes) components
    let sorted_nets := sortAsc (fun a b => strLe a.name b.name) nets
    let complex_components := sorted_components.filter (fun c => c.is_complex)
    let compLines :=
      if complex_components.isEmpty then
        ["(All components are simple passives - see NETS section)"]
      else complex_components.map _format_component_block
    let netLines := sorted_nets.map (fun net =>
      _format_net_block net (atlasPages net_page_map net.name) sorted_components)
    joinWith "\n"
      ((("# PAGE: " ++ page_name) :: "" :: "# COMPONENTS" :: compLines) ++
        ("" :: "# NETS" :: netLines))

/-- `dsl_emitter._format_neighbor_summary`. -/
def _format_neighbor_summary (component : Component) : String :=
  if component.description ≠ "" then
    component.refdes ++ " (" ++ component.value ++ ") - " ++ component.description
  else component.refdes ++ " (" ++ component.value ++ ")"

/-- `dsl_emitter.emit_context_dsl`. -/
def emit_context_dsl (primary_components neighbor_components : List Component)
    (nets : List Net) : String :=
  if primary_components.isEmpty then "# No components in context\n"
  else
    let sorted_primary := sortAsc (fun a b => strLe a.refdes b.refdes) primary_components
    let sorted_neighbors := sortAsc (fun a b => strLe a.refdes b.refdes) neighbor_components
    let sorted_nets := sortAsc (fun a b => strLe a.name b.name) nets
    let primary_refdes := joinWith ", " (sorted_primary.map (·.refdes))
    let compLines := (sorted_primary.filter (·.is_complex)).map _format_component_block
    let neighborLines :=
      if sorted_neighbors.isEmpty then []
      else "# CONTEXT_NEIGHBORS" :: sorted_neighbors.map _format_neighbor_summary ++ [""]
    let all_components := sorted_primary ++ sorted_neighbors
    let netLines := sorted_nets.map (fun net =>
      _format_net_block net net.pages all_components)
    joinWith "\n"
      ((("# CONTEXT: " ++ primary_refdes) :: "" :: "# COMPONENTS" :: compLines) ++
        [""] ++ neighborLines ++ ("# NETS" :: netLines))

/-! ## Librarian (`librarian.py`)

The Python `Librarian` object is a reference to a provider plus mutable
cached fields.  The provider (`interfaces.SchematicProvider`) has its own
internal mutable state, set by `fetch_raw_data` and read by the getters; it
is modelled by a state type `σ` threaded explicitly.  Raised exceptions
become `Except.error`; on a failed call the fields assigned before the
failure keep their new values and the later fields their old ones, exactly
as in Python.  Each Librarian operation additionally returns the list of
provider operations it invoked, so that fetch counts can be stated. -/

/-- The three operations of the `SchematicProvider` contract. -/
inductive ProviderOp where
  | fetch
  | getComponents
  | getNets
deriving Repr, DecidableEq

/-- A provider with internal state `σ`: `fetch_raw_data` replaces the
internal state (or raises), and the getters read it (or raise). -/
structure Provider (σ : Type) where
  fetch_raw_data : σ → Except String σ
  get_components : σ → Except String (List Component)
  get_nets : σ → Except String (List Net)

/-- The Librarian's own state: the provider's internal state and the four
cached fields of `Librarian.__init__` (`dirty`, `components`, `nets`,
`net_page_map`). -/
structure LibState (σ : Type) where
  pstate : σ
  dirty : Bool := true
  components : List Component := []
  nets : List Net := []
  net_page_map : List (String × List String) := []
deriving Repr, DecidableEq

/-- Insert into the Atlas dictionary: a later net with the same name
overwrites the earlier entry in place, as a Python dict assignment does. -/
def dictInsert (m : List (String × List String)) (k : String) (v : List String) :
    List (String × List String) :=
  if m.any (fun e => e.1 == k) then
    m.map (fun e => if e.1 == k then (k, v) else e)
  else m ++ [(k, v)]

/-- The Atlas build loop of `Librarian.refresh`: `net_page_map[net.name] =
net.pages` over all nets, starting from an empty dict. -/
def buildAtlas (nets : List Net) : List (String × List String) :=
  nets.foldl (fun m net => dictInsert m net.name net.pages) []

/-- `Librarian.refresh`: a no-op when not dirty; otherwise fetch, read the
two getters, rebuild the Atlas and clear the flag.  A raised provider
exception surfaces as `Except.error` and stops the sequence there, leaving
all not-yet-assigned cached fields at their previous values.  (The
provider's internal state after a failed fetch is not observable by the
Librarian; the model keeps the old one.) -/
def refresh (P : Provider σ) (st : LibState σ) :
    Except String Unit × LibState σ × List ProviderOp :=
  if st.dirty then
    match P.fetch_raw_data st.pstate with
    | Except.error e => (Except.error e, st, [ProviderOp.fetch])
    | Except.ok s1 =>
      match P.get_components s1 with
      | Except.error e =>
        (Except.error e, { st with pstate := s1 },
          [ProviderOp.fetch, ProviderOp.getComponents])
      | Except.ok comps =>
        match P.get_nets s1 with
        | Except.error e =>
          (Except.error e, { st with pstate := s1, components := comps },
            [ProviderOp.fetch, ProviderOp.getComponents, ProviderOp.getNets])
        | Except.ok nets =>
          (Except.ok (),
            { pstate := s1, dirty := false, components := comps, nets := nets,
              net_page_map := buildAtlas nets },
            [ProviderOp.fetch, ProviderOp.getComponents, ProviderOp.getNets])
  else (Except.ok (), st, [])

/-- `Librarian.mark_dirty`. -/
def mark_dirty (st : LibState σ) : LibState σ :=
  { st with dirty := true }

/-- The page-not-found text of `Librarian.get_page`. -/
def pageNotFoundMsg (page_name : String) : String :=
  "# PAGE: " ++ page_name ++ "\n\n(Page not found in schematic)\n"

/-- The net filter of `Librarian.get_page`: nets with at least one member
whose refdes belongs to the page's component set. -/
def pageNetsFor (page_components : List Component) (nets : List Net) : List Net :=
  let refdesSet := page_components.map (fun c => c.refdes)
  nets.filter (fun net => net.members.any (fun m => refdesSet.contains m.1))

/-- The body of `Librarian.get_page` over the cached fields (everything
after its `self.refresh()` call).  When no component matches, Python keeps
`page_components = []` and falls through to the emitter unless no net's
pages contain the name either, in which case the not-found text returns. -/
def get_page_text (components : List Component) (nets : List Net)
    (net_page_map : List (String × List String)) (page_name : String) : String :=
  let page_components := components.filter (fun c => c.page == page_name)
  if page_components.isEmpty &&
      !(nets.any (fun net => net.pages.contains page_name)) then
    pageNotFoundMsg page_name
  else
    emit_page_dsl page_components (pageNetsFor page_components nets) net_page_map

/-- `Librarian.get_page`: refresh, then render from the cache. -/
def get_page (P : Provider σ) (st : LibState σ) (page_name : String) :
    Except String String × LibState σ :=
  match refresh P st with
  | (Except.error e, st1, _) => (Except.error e, st1)
  | (Except.ok _, st1, _) =>
    (Except.ok (get_page_text st1.components st1.nets st1.net_page_map page_name), st1)

/-- Step 1 of `Librarian.get_context`: the primary components. -/
def primaryComponents (refdes_list : List String) (components : List Component) :
    List Component :=
  components.filter (fun c => refdes_list.contains c.refdes)

/-- The primary refdes set (as the list of primary refdes). -/
def primaryRefdes (refdes_list : List String) (components : List Component) :
    List String :=
  (primaryComponents refdes_list components).map (fun c => c.refdes)

/-- Step 2: nets with at least one primary member. -/
def connectedNets (refdes_list : List String) (components : List Component)
    (nets : List Net) : List Net :=
  nets.filter (fun net =>
    net.members.any (fun m => (primaryRefdes refdes_list components).contains m.1))

/-- Step 3: every non-primary member refdes of a connected net (the Python
set is modelled as a list; only membership in it is ever used). -/
def neighborRefdes (refdes_list : List String) (components : List Component)
    (nets : List Net) : List String :=
  ((connectedNets refdes_list components nets).map
      (fun net => net.members.map (fun m => m.1))).flatten.filter
    (fun r => !(primaryRefdes refdes_list components).contains r)

/-- The context refdes set of step 5: primary or neighbor. -/
def contextRefdes (refdes_list : List String) (components : List Component)
    (nets : List Net) : List String :=
  primaryRefdes refdes_list components ++ neighborRefdes refdes_list components nets

/-- Step 5: each connected net replaced by a freshly constructed `Net` with
the same name and pages and the member list filtered to the context set. -/
def contextNetsFor (refdes_list : List String) (components : List Component)
    (nets : List Net) : List Net :=
  (connectedNets refdes_list components nets).map (fun net =>
    { name := net.name, pages := net.pages,
      members := net.members.filter
        (fun m => (contextRefdes refdes_list components nets).contains m.1) })

/-- The body of `Librarian.get_context` over the cached fields (everything
after its `self.refresh()` call). -/
def get_context_text (refdes_list : List String) (components : List Component)
    (nets : List Net) : String :=
  if refdes_list.isEmpty then
    "# CONTEXT: (empty)\n\n(No components specified for context)\n"
  else if (primaryComponents refdes_list components).isEmpty then
    "# CONTEXT: " ++ joinWith ", " refdes_list ++
      "\n\n(Components not found in schematic)\n"
  else
    let all_neighbors := components.filter
      (fun c => (neighborRefdes refdes_list components nets).contains c.refdes)
    let neighbor_components := all_neighbors.filter (fun c => !c.is_passive)
    emit_context_dsl (primaryComponents refdes_list components)
      neighbor_components (contextNetsFor refdes_list components nets)

/-- `Librarian.get_context`: refresh, then render from the cache. -/
def get_context (P : Provider σ) (st : LibState σ) (refdes_list : List String) :
    Except String String × LibState σ :=
  match refresh P st with
  | (Except.error e, st1, _) => (Except.error e, st1)
  | (Except.ok _, st1, _) =>
    (Except.ok (get_context_text refdes_list st1.components st1.nets), st1)

/-! ## Helper lemmas -/

theorem insertAsc_length (le : α → α → Bool) (x : α) (l : List α) :
    (insertAsc le x l).length = l.length + 1 := by
  induction l with
  | nil => rfl
  | cons y ys ih =>
    simp only [insertAsc]
    split
    · simp
    · simp [ih]

theorem sortAsc_length (le : α → α → Bool) (l : List α) :
    (sortAsc le l).length = l.length := by
  induction l with
  | nil => rfl
  | cons x xs ih => simp [sortAsc, insertAsc_length, ih]

theorem sortedPinRefs_length (net : Net) (components : List Component) :
    (sortedPinRefs net components).length = net.members.length := by
  simp [sortedPinRefs, sortStrings, sortAsc_length]

theorem joinWith_cons_of_ne (sep a : String) {l : List String} (h : l ≠ []) :
    joinWith sep (a :: l) = a ++ sep ++ joinWith sep l := by
  cases l with
  | nil => exact absurd rfl h
  | cons b t => rfl

/-- Cancel a common left part of a string equation. -/
theorem string_append_left_cancel {p b c : String} (h : p ++ b = p ++ c) : b = c := by
  apply String.ext
  have hd := congrArg String.data h
  rw [String.data_append, String.data_append] at hd
  exact List.append_cancel_left hd

end SchematicCore

namespace SchematicCore

/-! ## Claim C7: the natural pin sort -/

/-- C7: the natural sort used for pin designators splits a designator into
alternating non-digit/digit runs and compares digit runs numerically; the
key of "A1" is ("A", 1, ""), that of "100" is ("", 100, ""), and sorting
["100","1","2","10","A1","20","3"] by this key yields
["1","2","3","10","20","100","A1"]. -/
theorem natural_sort_scenario :
    natural_sort_key "A1" = [KeyPart.str "A", KeyPart.num 1, KeyPart.str ""] ∧
    natural_sort_key "100" = [KeyPart.str "", KeyPart.num 100, KeyPart.str ""] ∧
    naturalSortStrings ["100", "1", "2", "10", "A1", "20", "3"] =
      ["1", "2", "3", "10", "20", "100", "A1"] := by
  refine ⟨?_, ?_, ?_⟩ <;> decide

/-! ## Claim C3: power-named nets are global -/

/-- C3: a net whose name matches the power/ground naming pattern of
`Net.is_global` (the embedded `power_pattern` regex: GND/VSS/VCC/VDD/VEE/VBAT
heads, voltage rails such as 3V3/+5V/1V8, names ending in _GND/_VCC/_VDD) is
global regardless of its member list and page set. -/
theorem power_named_net_is_global (net : Net)
    (h : matchesPowerPattern net.name = true) : net.is_global = true := by
  simp [Net.is_global, h]

/-- C3 witness: the single-member, single-page net "3V3" is global. -/
theorem power_named_net_is_global_witness :
    matchesPowerPattern "3V3" = true ∧
    Net.is_global { name := "3V3", pages := ["P1"], members := [("U1", "1")] } = true :=
  ⟨by decide, power_named_net_is_global
    { name := "3V3", pages := ["P1"], members := [("U1", "1")] } (by decide)⟩

/-! ## Claim C8: the refdes type table and passivity -/

/-- The spec's §3 prefix table, written from the spec's words (`R→RES;
C→CAP; L,FB→IND; F→FUSE; D,LED→DIODE; Q→TRANSISTOR; U→IC; J,P,CN,CONN→CONN;
SW→SWITCH; X,Y→OSC; else ACTIVE`) for comparison with
`Component.derived_type`. -/
def specTypeTable (pu : String) : String :=
  if pu ∈ ["R"] then "RES"
  else if pu ∈ ["C"] then "CAP"
  else if pu ∈ ["L", "FB"] then "IND"
  else if pu ∈ ["F"] then "FUSE"
  else if pu ∈ ["D", "LED"] then "DIODE"
  else if pu ∈ ["Q"] then "TRANSISTOR"
  else if pu ∈ ["U"] then "IC"
  else if pu ∈ ["J", "P", "CN", "CONN"] then "CONN"
  else if pu ∈ ["SW"] then "SWITCH"
  else if pu ∈ ["X", "Y"] then "OSC"
  else "ACTIVE"

/-- C8: `derived_type` maps the uppercased alphabetic refdes head through
the spec's fixed table, `is_passive` holds exactly for RES/CAP/IND/FUSE,
and in particular a refdes head "R" (any case) gives RES and passive. -/
theorem derived_type_table (c : Component) :
    c.derived_type = specTypeTable (refdesHead c.refdes) ∧
    (c.is_passive = true ↔
      c.derived_type = "RES" ∨ c.derived_type = "CAP" ∨
        c.derived_type = "IND" ∨ c.derived_type = "FUSE") ∧
    (refdesHead c.refdes = "R" → c.derived_type = "RES" ∧ c.is_passive = true) := by
  have htab : c.derived_type = specTypeTable (refdesHead c.refdes) := by
    simp only [Component.derived_type, specTypeTable, List.mem_cons,
      List.mem_singleton, List.not_mem_nil, or_false]
  have hpass : c.is_passive = true ↔
      c.derived_type = "RES" ∨ c.derived_type = "CAP" ∨
        c.derived_type = "IND" ∨ c.derived_type = "FUSE" := by
    simp [Component.is_passive]
  refine ⟨htab, hpass, fun hr => ?_⟩
  have hres : c.derived_type = "RES" := by rw [htab, hr]; rfl
  exact ⟨hres, hpass.mpr (Or.inl hres)⟩

/-! ## Claim C9: pin reference formatting -/

/-- The pin a member reference resolves to: the first pin with the member's
designator on the first component with the member's refdes, as the two
Python linear searches of `_format_pin_reference` find it. -/
def lookupPin (refdes pin_designator : String) (components : List Component) :
    Option Pin :=
  (components.find? (fun comp => comp.refdes == refdes)).bind
    (fun component => component.pins.find? (fun p => p.designator == pin_designator))

/-- C9: a member renders as `REFDES.PIN` by default, and as
`REFDES.PIN(NAME)` exactly when the pin is found on a known component and
its name is non-empty and not one of "1","2","3","4","A","K". -/
theorem pin_reference_format (refdes pin_designator : String)
    (components : List Component) :
    (lookupPin refdes pin_designator components = none →
      _format_pin_reference refdes pin_designator components =
        refdes ++ "." ++ pin_designator) ∧
    (∀ pin, lookupPin refdes pin_designator components = some pin →
      ((pin.name = "" ∨ pin.name ∈ trivialPinNames) →
        _format_pin_reference refdes pin_designator components =
          refdes ++ "." ++ pin_designator) ∧
      ((pin.name ≠ "" ∧ pin.name ∉ trivialPinNames) →
        _format_pin_reference refdes pin_designator components =
          refdes ++ "." ++ pin_designator ++ "(" ++ pin.name ++ ")")) := by
  cases hc : components.find? (fun comp => comp.refdes == refdes) with
  | none =>
    constructor
    · intro _
      simp [_format_pin_reference, hc]
    · intro pin hpin
      rw [lookupPin, hc] at hpin
      simp at hpin
  | some component =>
    cases hp : component.pins.find? (fun p => p.designator == pin_designator) with
    | none =>
      constructor
      · intro _
        simp [_format_pin_reference, hc, hp]
      · intro pin hpin
        rw [lookupPin, hc] at hpin
        simp [hp] at hpin
    | some pin =>
      constructor
      · intro h
        rw [lookupPin, hc] at h
        simp [hp] at h
      · intro q hq
        rw [lookupPin, hc] at hq
        simp only [Option.some_bind, hp] at hq
        obtain rfl : pin = q := Option.some.inj hq
        constructor
        · rintro (h0 | h0)
          · simp [_format_pin_reference, hc, hp, h0]
          · have hcontains : trivialPinNames.contains pin.name = true := by
              simpa using h0
            by_cases he : pin.name = ""
            · simp [_format_pin_reference, hc, hp, he]
            · simp only [_format_pin_reference, hc, hp, if_neg he, hcontains,
                if_true]
        · rintro ⟨h1, h2⟩
          have hcontains : trivialPinNames.contains pin.name = false := by
            simpa using h2
          simp only [_format_pin_reference, hc, hp, if_neg h1, hcontains,
            Bool.false_eq_true, if_false]

/-! ## Claim C10: a nets-only page renders the no-components text -/

/-- C10: when no cached component sits on the page but some cached net's
pages contain it, `get_page` renders exactly the single-line
no-components text: the page's component set is empty, so the emitted page
keeps no nets and the emitter short-circuits on the empty component list. -/
theorem nets_only_page_message (components : List Component) (nets : List Net)
    (net_page_map : List (String × List String)) (page_name : String)
    (h1 : ∀ c ∈ components, c.page ≠ page_name)
    (h2 : ∃ n ∈ nets, page_name ∈ n.pages) :
    get_page_text components nets net_page_map page_name =
      "# No components on this page\n" := by
  have hfil : components.filter (fun c => c.page == page_name) = [] := by
    rw [List.filter_eq_nil_iff]
    intro c hc
    simpa using h1 c hc
  have hany : nets.any (fun net => net.pages.contains page_name) = true := by
    rw [List.any_eq_true]
    obtain ⟨n, hn, hp⟩ := h2
    exact ⟨n, hn, by simpa using hp⟩
  rw [get_page_text, hfil, hany]
  rfl

/-- C10 witness: a page carried only by a net. -/
theorem nets_only_page_message_witness :
    get_page_text [] [{ name := "N1", pages := ["P1"], members := [("U1", "1")] }]
        [] "P1" = "# No components on this page\n" :=
  nets_only_page_message [] [{ name := "N1", pages := ["P1"], members := [("U1", "1")] }]
    [] "P1" (by simp)
    ⟨{ name := "N1", pages := ["P1"], members := [("U1", "1")] }, by simp, by simp⟩

/-! ## Claim C1: global-net connection truncation -/

/-- C1: a global net with more than 10 members renders a block whose
connections line carries exactly the first 10 pin references in ascending
string order followed by the literal suffix `(+ N others)`, with N the
member count minus 10 (one pin reference per member, so the sorted
reference list has the members' length). -/
theorem global_net_block_truncation (net : Net) (net_pages : List String)
    (components : List Component)
    (hg : net.is_global = true) (hn : 10 < net.members.length) :
    _format_net_block net net_pages components =
      joinWith "\n" ["NET " ++ net.name, "  LINKS: ALL_PAGES",
        "  CON: " ++ joinWith ", " ((sortedPinRefs net components).take 10) ++
          " (+ " ++ toString (net.members.length - 10) ++ " others)"] := by
  have hlen : (sortedPinRefs net components).length = net.members.length :=
    sortedPinRefs_length net components
  have hgt : decide ((sortedPinRefs net components).length > 10) = true := by
    rw [hlen]
    exact decide_eq_true hn
  simp only [_format_net_block, hg, if_true, hgt, Bool.and_true, Bool.and_self,
    hlen, List.singleton_append, List.cons_append, List.nil_append]
  rw [decide_eq_true hn]
  rfl

/-- A 27-member global net for the truncation witness. -/
def gndNet27 : Net :=
  { name := "GND", pages := ["P1"],
    members :=
      [("U1", "1"), ("U2", "1"), ("U3", "1"), ("U4", "1"), ("U5", "1"),
       ("U6", "1"), ("U7", "1"), ("U8", "1"), ("U9", "1"), ("U10", "1"),
       ("U11", "1"), ("U12", "1"), ("U13", "1"), ("U14", "1"), ("U15", "1"),
       ("U16", "1"), ("U17", "1"), ("U18", "1"), ("U19", "1"), ("U20", "1"),
       ("U21", "1"), ("U22", "1"), ("U23", "1"), ("U24", "1"), ("U25", "1"),
       ("U26", "1"), ("U27", "1")] }

/-- C1 witness: the 27-member global net "GND" renders 10 references and a
`(+ 17 others)` suffix. -/
theorem global_net_block_truncation_witness :
    _format_net_block gndNet27 [] [] =
      joinWith "\n" ["NET " ++ gndNet27.name, "  LINKS: ALL_PAGES",
        "  CON: " ++ joinWith ", " ((sortedPinRefs gndNet27 []).take 10) ++
          " (+ " ++ toString (gndNet27.members.length - 10) ++ " others)"] :=
  global_net_block_truncation gndNet27 [] [] (by decide) (by decide)

/-! ## Claim C2: refresh idempotence

The claim quantifies over every Librarian state.  On a state that is
already fresh (`dirty = false`) both `refresh()` calls are no-ops, so the
two calls together perform zero provider fetches, not exactly one; the
counterexample below shows this.  On a stale state the claim holds and is
proved as the amended theorem. -/

/-- A provider whose operations always succeed, for the fresh-state
counterexample (its calls would be counted if any occurred). -/
def okProvider : Provider Unit :=
  { fetch_raw_data := fun _ => Except.ok ()
    get_components := fun _ => Except.ok []
    get_nets := fun _ => Except.ok [] }

/-- A Librarian state that is already fresh. -/
def freshState : LibState Unit :=
  { pstate := (), dirty := false }

/-- C2 counterexample: on an already-fresh Librarian state, two successive
`refresh()` calls perform zero provider fetches, not exactly one. -/
theorem refresh_twice_fresh_state_zero_fetches :
    ((refresh okProvider freshState).2.2 ++
        (refresh okProvider (refresh okProvider freshState).2.1).2.2).count
      ProviderOp.fetch = 0 ∧
    ¬(((refresh okProvider freshState).2.2 ++
        (refresh okProvider (refresh okProvider freshState).2.1).2.2).count
      ProviderOp.fetch = 1) := by
  constructor <;> decide

/-- C2 (amended): for every stale Librarian state whose first `refresh()`
succeeds, that refresh performs exactly one provider fetch and clears the
flag, and a second `refresh()` without an intervening `mark_dirty()` calls
no provider operation and leaves the whole cached state unchanged. -/
theorem refresh_idempotent {σ : Type} (P : Provider σ) (st st1 : LibState σ)
    (tr1 : List ProviderOp) (hd : st.dirty = true)
    (h1 : refresh P st = (Except.ok (), st1, tr1)) :
    tr1.count ProviderOp.fetch = 1 ∧ st1.dirty = false ∧
      refresh P st1 = (Except.ok (), st1, []) := by
  rw [refresh, if_pos hd] at h1
  cases hf : P.fetch_raw_data st.pstate with
  | error e => simp only [hf] at h1; simp at h1
  | ok s1 =>
    simp only [hf] at h1
    cases hc : P.get_components s1 with
    | error e => simp only [hc] at h1; simp at h1
    | ok comps =>
      simp only [hc] at h1
      cases hn : P.get_nets s1 with
      | error e => simp only [hn] at h1; simp at h1
      | ok nets =>
        simp only [hn] at h1
        rw [Prod.mk.injEq, Prod.mk.injEq] at h1
        obtain ⟨-, hst, htr⟩ := h1
        subst hst
        subst htr
        refine ⟨by decide, rfl, ?_⟩
        rw [refresh]
        rfl

/-- The net delivered by `countingProvider`. -/
def gndP1Net : Net := { name := "GND", pages := ["P1"], members := [("U1", "1")] }

/-- A provider whose internal state counts its fetches. -/
def countingProvider : Provider Nat :=
  { fetch_raw_data := fun n => Except.ok (n + 1)
    get_components := fun _ => Except.ok []
    get_nets := fun _ => Except.ok [gndP1Net] }

/-- The initial (stale) Librarian state over `countingProvider`. -/
def staleState : LibState Nat := { pstate := 0 }

/-- The cache after the first successful refresh of `staleState`. -/
def refreshedState : LibState Nat :=
  { pstate := 1, dirty := false, components := [], nets := [gndP1Net],
    net_page_map := [("GND", ["P1"])] }

/-- C2 witness: the stale `staleState` refreshes with exactly one fetch and
the second refresh is a no-op. -/
theorem refresh_idempotent_witness :
    [ProviderOp.fetch, ProviderOp.getComponents, ProviderOp.getNets].count
        ProviderOp.fetch = 1 ∧
      refreshedState.dirty = false ∧
      refresh countingProvider refreshedState = (Except.ok (), refreshedState, []) :=
  refresh_idempotent countingProvider staleState refreshedState
    [ProviderOp.fetch, ProviderOp.getComponents, ProviderOp.getNets] rfl (by rfl)

/-! ## Claim C4: a failing refresh and the previous cache

The claim asserts that a failure of any provider operation during
`refresh()` leaves the previously cached components, nets and Atlas all
unchanged.  That holds when `fetch_raw_data` or `get_components` raises,
but when `get_nets` raises the components cache has already been
reassigned: the counterexample below exhibits a provider whose `get_nets`
fails on the second fetch and whose cached components change.  The amended
theorem proves the exact preservation behaviour of all three failure
points. -/

/-- C4 (amended): when the provider's fetch raises during a refresh of a
stale Librarian, the exception is surfaced and the whole cached state
(components, nets, Atlas, flag) is preserved; likewise when the components
getter raises; when the nets getter raises the exception is surfaced and
the cached nets and Atlas are preserved, but the cached components have
already been replaced by the freshly fetched ones. -/
theorem refresh_failure_cache {σ : Type} (P : Provider σ) (st : LibState σ)
    (e : String) (hd : st.dirty = true) :
    (P.fetch_raw_data st.pstate = Except.error e →
      refresh P st = (Except.error e, st, [ProviderOp.fetch])) ∧
    (∀ s1, P.fetch_raw_data st.pstate = Except.ok s1 →
      P.get_components s1 = Except.error e →
      refresh P st = (Except.error e, { st with pstate := s1 },
        [ProviderOp.fetch, ProviderOp.getComponents])) ∧
    (∀ s1 comps, P.fetch_raw_data st.pstate = Except.ok s1 →
      P.get_components s1 = Except.ok comps →
      P.get_nets s1 = Except.error e →
      refresh P st = (Except.error e, { st with pstate := s1, components := comps },
        [ProviderOp.fetch, ProviderOp.getComponents, ProviderOp.getNets])) := by
  refine ⟨fun hf => ?_, fun s1 hf hc => ?_, fun s1 comps hf hc hn => ?_⟩
  · rw [refresh, if_pos hd]
    simp only [hf]
  · rw [refresh, if_pos hd]
    simp only [hf, hc]
  · rw [refresh, if_pos hd]
    simp only [hf, hc, hn]

/-- A provider that always fails to fetch, for the C4 witness. -/
def failingProvider : Provider Unit :=
  { fetch_raw_data := fun _ => Except.error "ingest failure"
    get_components := fun _ => Except.ok []
    get_nets := fun _ => Except.ok [] }

/-- The component previously cached by `staleCachedState`. -/
def cachedR1 : Component :=
  { refdes := "R1", value := "10k", footprint := "0603", mpn := "",
    page := "P1", description := "", pins := [] }

/-- The net previously cached by `staleCachedState`. -/
def cachedN1 : Net := { name := "N1", pages := ["P1"], members := [("R1", "1")] }

/-- A stale state that still holds a previously refreshed cache. -/
def staleCachedState : LibState Unit :=
  { pstate := (), dirty := true, components := [cachedR1], nets := [cachedN1],
    net_page_map := [("N1", ["P1"])] }

/-- C4 witness: a failing fetch surfaces the error and preserves the
cached state in full. -/
theorem refresh_failure_cache_witness :
    refresh failingProvider staleCachedState =
      (Except.error "ingest failure", staleCachedState, [ProviderOp.fetch]) :=
  (refresh_failure_cache failingProvider staleCachedState "ingest failure" rfl).1 (by rfl)

/-- A component cached by the first fetch of `netsFailProvider`. -/
def oldComponent : Component :=
  { refdes := "R1", value := "10k", footprint := "0603", mpn := "",
    page := "P1", description := "old", pins := [] }

/-- The component delivered by the second fetch of `netsFailProvider`. -/
def newComponent : Component :=
  { refdes := "R1", value := "22k", footprint := "0603", mpn := "",
    page := "P1", description := "new", pins := [] }

/-- A provider whose first fetch succeeds completely and whose second
fetch delivers different components and then fails in `get_nets`. -/
def netsFailProvider : Provider Nat :=
  { fetch_raw_data := fun n => Except.ok (n + 1)
    get_components := fun s => Except.ok (if s = 1 then [oldComponent] else [newComponent])
    get_nets := fun s => if s = 1 then Except.ok [] else Except.error "net parse failure" }

/-- C4 counterexample: after a successful refresh and `mark_dirty`, a
refresh whose `get_nets` raises surfaces the exception but leaves the
cached components replaced — the previous cache is not preserved in full. -/
theorem refresh_getnets_failure_replaces_components :
    (refresh netsFailProvider
        (mark_dirty (refresh netsFailProvider { pstate := 0 }).2.1)).1 =
      Except.error "net parse failure" ∧
    ¬((refresh netsFailProvider
        (mark_dirty (refresh netsFailProvider { pstate := 0 }).2.1)).2.1.components =
      (refresh netsFailProvider { pstate := 0 }).2.1.components) := by
  constructor
  · rfl
  · decide

/-! ## Claim C5: get_context reads the cache copy-on-read -/

/-- C5: on a fresh cache whose requested components exist, `get_context`
returns the Librarian state unchanged (so every cached net's member list is
what it was before the call), and every per-query filtered net view it
builds is a new value with the name and pages of a cached net and that
net's members filtered to the primary-or-neighbor refdes set. -/
theorem get_context_copy_on_read {σ : Type} (P : Provider σ) (st : LibState σ)
    (refdes_list : List String)
    (hfresh : st.dirty = false)
    (hexists : (primaryComponents refdes_list st.components).isEmpty = false) :
    (get_context P st refdes_list).2 = st ∧
    ∀ n' ∈ contextNetsFor refdes_list st.components st.nets,
      ∃ n ∈ st.nets, n'.name = n.name ∧ n'.pages = n.pages ∧
        n'.members = n.members.filter
          (fun m => (contextRefdes refdes_list st.components st.nets).contains m.1) := by
  constructor
  · rw [get_context, refresh, if_neg (by simp [hfresh])]
  · intro n' hn'
    rw [contextNetsFor] at hn'
    obtain ⟨n, hn, rfl⟩ := List.mem_map.mp hn'
    rw [connectedNets] at hn
    exact ⟨n, (List.mem_filter.mp hn).1, rfl, rfl, rfl⟩

/-- A fresh Librarian state over a one-component, one-net cache. -/
def freshCachedState : LibState Unit :=
  { pstate := (), dirty := false, components := [cachedR1], nets := [cachedN1],
    net_page_map := [("N1", ["P1"])] }

/-- C5 witness: a context query for the cached "R1". -/
theorem get_context_copy_on_read_witness :
    (get_context okProvider freshCachedState ["R1"]).2 = freshCachedState ∧
    ∀ n' ∈ contextNetsFor ["R1"] freshCachedState.components freshCachedState.nets,
      ∃ n ∈ freshCachedState.nets, n'.name = n.name ∧ n'.pages = n.pages ∧
        n'.members = n.members.filter
          (fun m => (contextRefdes ["R1"] freshCachedState.components
            freshCachedState.nets).contains m.1) :=
  get_context_copy_on_read okProvider freshCachedState ["R1"] rfl (by decide)

/-! ## Claim C6: when get_page reports page-not-found -/

/-- Rendering the empty component list short-circuits the page emitter. -/
theorem emit_page_dsl_nil (nets : List Net) (m : List (String × List String)) :
    emit_page_dsl [] nets m = "# No components on this page\n" := rfl

/-- The page emitter on a non-empty component list: the page header names
the first component's page and is followed by the blank line and the
COMPONENTS marker. -/
theorem emit_page_dsl_cons (c : Component) (cs : List Component) (nets : List Net)
    (m : List (String × List String)) :
    ∃ rest : String, emit_page_dsl (c :: cs) nets m =
      "# PAGE: " ++ c.page ++ "\n" ++
        ("" ++ "\n" ++ ("# COMPONENTS" ++ "\n" ++ rest)) := by
  rw [emit_page_dsl, if_neg (by simp)]
  simp only [List.head?_cons, List.cons_append]
  rw [joinWith_cons_of_ne _ _ (by simp), joinWith_cons_of_ne _ _ (by simp),
    joinWith_cons_of_ne _ _ (by simp)]
  exact ⟨_, rfl⟩

/-- The no-components line is never the page-not-found message. -/
theorem no_components_clash (p : String) :
    "# No components on this page\n" ≠ pageNotFoundMsg p := by
  intro h
  have h3 := congrArg (fun s : String => s.data.take 3) h
  simp only [pageNotFoundMsg, String.data_append] at h3
  have e1 : ("# No components on this page\n".data).take 3 = ['#', ' ', 'N'] := rfl
  have e2 : (("# PAGE: ".data ++ p.data) ++
      "\n\n(Page not found in schematic)\n".data).take 3 = ['#', ' ', 'P'] := rfl
  rw [e1, e2] at h3
  exact absurd h3 (by decide)

/-- A rendered page block for page `p` is never the page-not-found message
for `p`: after the shared `# PAGE: p` header the two texts diverge. -/
theorem page_header_clash (p rest : String) :
    "# PAGE: " ++ p ++ "\n" ++ ("" ++ "\n" ++ ("# COMPONENTS" ++ "\n" ++ rest)) ≠
      pageNotFoundMsg p := by
  intro h
  have hd := congrArg String.data h
  simp only [pageNotFoundMsg, String.data_append, List.append_assoc] at hd
  have hd2 := List.append_cancel_left (List.append_cancel_left hd)
  have h3 := congrArg (fun l : List Char => l.take 3) hd2
  have e1 : ("\n".data ++ ("".data ++ ("\n".data ++ ("# COMPONENTS".data ++
      ("\n".data ++ rest.data))))).take 3 = ['\n', '\n', '#'] := rfl
  have e2 : ("\n\n(Page not found in schematic)\n".data).take 3 = ['\n', '\n', '('] := rfl
  simp only [e1, e2] at h3
  exact absurd h3 (by decide)

/-- C6: `get_page` renders the explicit page-not-found message exactly when
no cached component's page equals the requested name and no cached net's
pages contain it; a nets-only page does not produce the message. -/
theorem get_page_not_found_iff (components : List Component) (nets : List Net)
    (net_page_map : List (String × List String)) (page_name : String) :
    get_page_text components nets net_page_map page_name = pageNotFoundMsg page_name ↔
      ((∀ c ∈ components, c.page ≠ page_name) ∧ ∀ n ∈ nets, page_name ∉ n.pages) := by
  constructor
  · intro h
    simp only [get_page_text] at h
    cases hfe : components.filter (fun c => c.page == page_name) with
    | cons c0 cs0 =>
      rw [hfe] at h
      simp only [List.isEmpty_cons, Bool.false_and, Bool.false_eq_true, if_false] at h
      exfalso
      have hc0 : c0.page = page_name := by
        have hmem : c0 ∈ components.filter (fun c => c.page == page_name) := by
          rw [hfe]
          exact List.mem_cons_self _ _
        simpa using (List.mem_filter.mp hmem).2
      obtain ⟨rest, hem⟩ :=
        emit_page_dsl_cons c0 cs0 (pageNetsFor (c0 :: cs0) nets) net_page_map
      rw [hem, hc0] at h
      exact page_header_clash page_name rest h
    | nil =>
      rw [hfe] at h
      by_cases hany : nets.any (fun net => net.pages.contains page_name) = true
      · exfalso
        rw [hany] at h
        simp only [List.isEmpty_nil, Bool.not_true, Bool.and_false,
          Bool.false_eq_true, if_false] at h
        rw [emit_page_dsl_nil] at h
        exact no_components_clash page_name h
      · have hany' : nets.any (fun net => net.pages.contains page_name) = false :=
          Bool.eq_false_iff.mpr hany
        constructor
        · intro c hc heq
          have hnone := List.filter_eq_nil_iff.mp hfe c hc
          exact hnone (by simp [heq])
        · intro n hn hpn
          have hnone := List.any_eq_false.mp hany' n hn
          exact hnone (by simpa using hpn)
  · rintro ⟨h1, h2⟩
    have hfe : components.filter (fun c => c.page == page_name) = [] := by
      rw [List.filter_eq_nil_iff]
      intro c hc
      simpa using h1 c hc
    have hany : nets.any (fun net => net.pages.contains page_name) = false := by
      rw [List.any_eq_false]
      intro n hn
      simpa using h2 n hn
    simp only [get_page_text, hfe, hany]
    rfl

end SchematicCore
